import Mathlib

/-!
Shallow embedding of the proxy-checker core
(`app/services/proxy_checker.py` and the batch summary computed in
`app/api/v1/endpoints/proxy.py`), with theorems settling the spec claims.

Modelling conventions:
* Python strings are Lean `String`s; `str.startswith` on a tuple of
  scheme strings is character-list prefix testing.
* The network probe performed inside `check_proxy`'s `try` block is the
  environment: a `ProbeOutcome` value says what the single GET request
  did (a response with an HTTP status, a JSON-parse result and an
  elapsed time; a timeout; or any other exception with its message).
  `check_proxy` is then the pure classification of that outcome, exactly
  mirroring the source's branches.  Totality of the Lean function (it
  returns a `ProxyResult`, not an `Except`) embeds the source property
  that every path of the `try/except` produces a result and nothing
  escapes to the caller.
* Seconds and rates are `ℚ`; `round2` models Python's `round(x, 2)` as
  `round (x * 100) / 100`.
* The `asyncio.Semaphore` bounding the batch fan-out is modelled as a
  transition system over per-task phases, with an acquire step enabled
  only while fewer than `max_concurrent` tasks are running.
-/

/-- Status enumeration, from `ProxyStatus` (proxy_checker.py lines 11-16). -/
inductive ProxyStatus where
  | working
  | failed
  | timeout
deriving DecidableEq, Repr

/-- Result record of one proxy check, from the `ProxyResult` dataclass
(proxy_checker.py lines 19-29); `None` defaults become `Option.none`. -/
structure ProxyResult where
  proxy : String
  status : ProxyStatus
  response_time : Option ℚ := none
  ip_address : Option String := none
  country : Option String := none
  city : Option String := none
  error : Option String := none
deriving DecidableEq, Repr

/-- Checker configuration, from `ProxyChecker.__init__`
(proxy_checker.py lines 35-44). -/
structure ProxyChecker where
  timeout : ℕ := 10
  test_url : String := "http://ip-api.com/json/"
deriving DecidableEq, Repr

/-- The JSON object returned by the probe endpoint, restricted to the
string-valued fields the code reads via `data.get(...)`. -/
abbrev JsonObj := List (String × String)

/-- Python's `dict.get`: the value at the first matching key, else `none`. -/
def jsonGet (data : JsonObj) (key : String) : Option String :=
  (data.find? (fun kv => kv.1 == key)).map (fun kv => kv.2)

/-- What the single outbound GET request of `check_proxy` did: a response
(HTTP status, the outcome the body's JSON parse would have, elapsed
seconds since the start timestamp), an `asyncio.TimeoutError`, or any
other exception with its message `str(e)`. -/
inductive ProbeOutcome where
  | response (status : ℕ) (body : Except String JsonObj) (elapsed : ℚ)
  | timedOut
  | failure (msg : String)

/-- Python's `round(x, 2)`: round to two decimal places. -/
def round2 (x : ℚ) : ℚ := (round (x * 100) : ℚ) / 100

/-- Python's `s.startswith(t)` for a tuple `t` of literal strings:
true iff some member is a character-prefix of `s`. -/
def startswithAny (s : String) (opts : List String) : Bool :=
  opts.any (fun p => p.data.isPrefixOf s.data)

/-- The four scheme strings of the `startswith` tuple
(proxy_checker.py line 57). -/
def schemeList : List String := ["http://", "https://", "socks4://", "socks5://"]

/-- Normalization of a proxy spec (proxy_checker.py lines 56-58): keep
the string if it starts with a recognized scheme, else prepend
`http://` (the f-string `f"http://..."`). -/
def normalizeProxy (proxy : String) : String :=
  if startswithAny proxy schemeList then proxy else "http://" ++ proxy

/-- Classification of one check, from `ProxyChecker.check_proxy`
(proxy_checker.py lines 46-103).  The probe itself (session/GET with
`timeout` and `test_url`) is the environment, summarized by `outcome`;
each branch below is the corresponding source branch:
status 200 with a successful JSON parse → working with geo fields and
rounded elapsed time; a JSON-parse failure on a 200 falls into the
generic `except Exception` branch; status ≠ 200 → failed with
`"HTTP status"`; `asyncio.TimeoutError` → timeout; any other
exception → failed with its message. -/
def ProxyChecker.check_proxy (_c : ProxyChecker) (proxy : String)
    (outcome : ProbeOutcome) : ProxyResult :=
  let proxy := normalizeProxy proxy
  match outcome with
  | .response status body elapsed =>
    if status = 200 then
      match body with
      | .ok data =>
        ⟨proxy, .working, some (round2 elapsed),
          jsonGet data "query", jsonGet data "country", jsonGet data "city", none⟩
      | .error msg => ⟨proxy, .failed, none, none, none, none, some msg⟩
    else
      ⟨proxy, .failed, none, none, none, none, some ("HTTP " ++ toString status)⟩
  | .timedOut => ⟨proxy, .timeout, none, none, none, none, some "Connection timeout"⟩
  | .failure msg => ⟨proxy, .failed, none, none, none, none, some msg⟩

/-- Batch check, from `ProxyChecker.check_proxies`
(proxy_checker.py lines 105-127): one `check_proxy` task per input, and
`asyncio.gather` returns the results in the order the tasks were listed,
i.e. input order.  `env i` is the probe outcome of the `i`-th task. -/
def ProxyChecker.check_proxies (c : ProxyChecker) (proxies : List String)
    (env : ℕ → ProbeOutcome) : List ProxyResult :=
  proxies.mapIdx (fun i p => c.check_proxy p (env i))

/-- Batch summary fields computed by the `check_batch` endpoint
(proxy.py lines 98-110). -/
structure BatchSummary where
  total : ℕ
  working : ℕ
  failed : ℕ
  success_rate : ℚ
deriving DecidableEq, Repr

/-- Summary statistics, from `check_batch` (proxy.py lines 98-102):
`total = len(results)`, `working = sum(1 for r in results if r.status == WORKING)`,
`failed = total - working`,
`success_rate = round(working / total * 100, 2) if total > 0 else 0.0`. -/
def check_batch_summary (results : List ProxyResult) : BatchSummary :=
  let total := results.length
  let working := results.countP (fun r => r.status == ProxyStatus.working)
  let failed := total - working
  let success_rate :=
    if total > 0 then round2 ((working : ℚ) / (total : ℚ) * 100) else 0
  ⟨total, working, failed, success_rate⟩

/-- Concrete batch of one working, one failed and one timeout result, used to
evaluate the summary on a closed input. -/
def sampleResults : List ProxyResult :=
  [⟨"http://p1", ProxyStatus.working, some 1, none, none, none, none⟩,
   ⟨"http://p2", ProxyStatus.failed, none, none, none, none, some "HTTP 403"⟩,
   ⟨"http://p3", ProxyStatus.timeout, none, none, none, none,
     some "Connection timeout"⟩]

/-- Phase of one task of `check_proxies` (proxy_checker.py lines 118-125):
created but not yet admitted by the semaphore, inside the `async with
semaphore` block performing its network check, or finished with its
`ProxyResult` produced and the semaphore unit released. -/
inductive TaskPhase where
  | waiting
  | running
  | done
deriving DecidableEq, Repr

/-- Number of tasks currently inside the semaphore block, i.e. performing
network I/O. -/
def runningCount {n : ℕ} (s : Fin n → TaskPhase) : ℕ :=
  ∑ j, if s j = TaskPhase.running then 1 else 0

/-- Scheduler step relation of `check_proxies` for a batch of `n` tasks under
`asyncio.Semaphore(max_concurrent)`: a waiting task may enter the `async
with semaphore` block only while fewer than `max_concurrent` tasks are
inside it (acquire), and a running task leaves the block unconditionally
once its `ProxyResult` is produced — on the working, failed and timeout
paths alike (release). -/
inductive SemStep (n max_concurrent : ℕ) :
    (Fin n → TaskPhase) → (Fin n → TaskPhase) → Prop where
  | acquire (s : Fin n → TaskPhase) (i : Fin n) (hw : s i = TaskPhase.waiting)
      (hc : runningCount s < max_concurrent) :
      SemStep n max_concurrent s (Function.update s i TaskPhase.running)
  | release (s : Fin n → TaskPhase) (i : Fin n) (hr : s i = TaskPhase.running) :
      SemStep n max_concurrent s (Function.update s i TaskPhase.done)

/-- Initial scheduler state: all tasks created, none admitted yet. -/
def initState (n : ℕ) : Fin n → TaskPhase := fun _ => TaskPhase.waiting

/-- States the batch scheduler can reach from the initial state. -/
def Reachable (n max_concurrent : ℕ) (s : Fin n → TaskPhase) : Prop :=
  Relation.ReflTransGen (SemStep n max_concurrent) (initState n) s

/-! ### Helper lemmas -/

/-- Prepending `http://` always yields a string the scheme test accepts. -/
lemma startswithAny_http_append (s : String) :
    startswithAny ("http://" ++ s) schemeList = true := by
  have h : ("http://" ++ s).data = "http://".data ++ s.data := String.data_append _ _
  simp only [startswithAny, schemeList, List.any_cons, List.any_nil, Bool.or_eq_true,
    List.isPrefixOf_iff_prefix, h]
  exact Or.inl (List.prefix_append _ _)

/-- The `proxy` field of every branch of `check_proxy` is the normalized spec. -/
lemma check_proxy_proxy_eq (c : ProxyChecker) (p : String) (outcome : ProbeOutcome) :
    (c.check_proxy p outcome).proxy = normalizeProxy p := by
  cases outcome with
  | response st body e =>
    cases body with
    | ok data => by_cases h : st = 200 <;> simp [ProxyChecker.check_proxy, h]
    | error msg => by_cases h : st = 200 <;> simp [ProxyChecker.check_proxy, h]
  | timedOut => rfl
  | failure m => rfl

/-! ### Claims -/

/-- C1: every probe outcome (success, non-200 response, timeout, any other
exception) is absorbed into a returned `ProxyResult` whose status is exactly
one of working, failed, timeout; totality of `check_proxy` embeds that no
error propagates to the caller. -/
theorem c1_check_proxy_absorbs_all_outcomes (c : ProxyChecker) (proxy : String)
    (outcome : ProbeOutcome) :
    (c.check_proxy proxy outcome).status = ProxyStatus.working ∨
    (c.check_proxy proxy outcome).status = ProxyStatus.failed ∨
    (c.check_proxy proxy outcome).status = ProxyStatus.timeout := by
  cases outcome with
  | response st body e =>
    cases body with
    | ok data => by_cases h : st = 200 <;> simp [ProxyChecker.check_proxy, h]
    | error msg => by_cases h : st = 200 <;> simp [ProxyChecker.check_proxy, h]
  | timedOut => simp [ProxyChecker.check_proxy]
  | failure m => simp [ProxyChecker.check_proxy]

/-- C2: a response within the timeout with HTTP status 200 and a JSON body
yields status working, `ip_address` from `query`, `country` from `country`,
`city` from `city` (absent keys give `none`, not an error), and
`response_time` equal to the elapsed seconds rounded to 2 decimals. -/
theorem c2_working_branch (c : ProxyChecker) (p : String) (data : JsonObj)
    (elapsed : ℚ) :
    c.check_proxy p (.response 200 (.ok data) elapsed) =
      ⟨normalizeProxy p, .working, some (round2 elapsed),
        jsonGet data "query", jsonGet data "country", jsonGet data "city", none⟩ ∧
    (c.check_proxy p (.response 200 (.ok []) elapsed)).ip_address = none ∧
    (c.check_proxy p (.response 200 (.ok []) elapsed)).country = none ∧
    (c.check_proxy p (.response 200 (.ok []) elapsed)).city = none := by
  refine ⟨rfl, ?_, ?_, ?_⟩ <;> rfl

/-- C3: a response with HTTP status other than 200 yields status failed with
error `"HTTP status"` and no timing or geolocation fields; exceeding the
timeout yields status timeout with error `"Connection timeout"`. -/
theorem c3_non200_and_timeout (c : ProxyChecker) (p : String) (st : ℕ)
    (body : Except String JsonObj) (elapsed : ℚ) (h : st ≠ 200) :
    c.check_proxy p (.response st body elapsed) =
      ⟨normalizeProxy p, .failed, none, none, none, none,
        some ("HTTP " ++ toString st)⟩ ∧
    c.check_proxy p .timedOut =
      ⟨normalizeProxy p, .timeout, none, none, none, none,
        some "Connection timeout"⟩ := by
  constructor
  · cases body <;> simp [ProxyChecker.check_proxy, h]
  · rfl

/-- C3 witness: HTTP 403 gives a failed result with error `"HTTP 403"`, and a
timeout gives a timeout result, at a concrete proxy and configuration. -/
theorem c3_witness :
    ProxyChecker.check_proxy ⟨10, "http://ip-api.com/json/"⟩ "1.2.3.4:8080"
        (.response 403 (.ok []) 1) =
      ⟨"http://1.2.3.4:8080", .failed, none, none, none, none, some "HTTP 403"⟩ ∧
    ProxyChecker.check_proxy ⟨10, "http://ip-api.com/json/"⟩ "1.2.3.4:8080"
        .timedOut =
      ⟨"http://1.2.3.4:8080", .timeout, none, none, none, none,
        some "Connection timeout"⟩ := by
  have h := c3_non200_and_timeout ⟨10, "http://ip-api.com/json/"⟩ "1.2.3.4:8080"
    403 (.ok []) 1 (by decide)
  exact ⟨by rw [h.1]; decide, by rw [h.2]; decide⟩

/-- C6: normalization leaves a string already carrying one of the four
recognized schemes unchanged and otherwise prepends `http://` exactly once,
and the `proxy` field of the result equals this normalized string on every
status branch. -/
theorem c6_normalization_and_proxy_field (c : ProxyChecker) (p : String)
    (outcome : ProbeOutcome) :
    (c.check_proxy p outcome).proxy = normalizeProxy p ∧
    (startswithAny p schemeList = true → normalizeProxy p = p) ∧
    (startswithAny p schemeList = false → normalizeProxy p = "http://" ++ p) := by
  refine ⟨check_proxy_proxy_eq c p outcome, ?_, ?_⟩ <;>
    intro h <;> simp [normalizeProxy, h]

/-- C6 witness: a socks5 spec is left unchanged (also in the result's `proxy`
field of a timeout branch), and a bare `host:port` spec gets `http://`
prepended once. -/
theorem c6_witness :
    (ProxyChecker.check_proxy ⟨10, "http://ip-api.com/json/"⟩ "socks5://h:1"
        ProbeOutcome.timedOut).proxy = "socks5://h:1" ∧
    normalizeProxy "socks5://h:1" = "socks5://h:1" ∧
    normalizeProxy "h:1" = "http://h:1" := by
  have h1 := c6_normalization_and_proxy_field ⟨10, "http://ip-api.com/json/"⟩
    "socks5://h:1" ProbeOutcome.timedOut
  have h2 := c6_normalization_and_proxy_field ⟨10, "http://ip-api.com/json/"⟩
    "h:1" ProbeOutcome.timedOut
  refine ⟨?_, h1.2.1 (by decide), h2.2.2 (by decide)⟩
  rw [h1.1]
  exact h1.2.1 (by decide)

/-- C7: in every result of `check_proxy`, `response_time` is non-null iff the
status is working; `ip_address`, `country`, `city` are non-null only when the
status is working; `error` is non-null iff the status is not working. -/
theorem c7_field_presence (c : ProxyChecker) (p : String) (outcome : ProbeOutcome) :
    ((c.check_proxy p outcome).response_time ≠ none ↔
      (c.check_proxy p outcome).status = ProxyStatus.working) ∧
    ((c.check_proxy p outcome).status = ProxyStatus.working ∨
      (c.check_proxy p outcome).ip_address = none) ∧
    ((c.check_proxy p outcome).status = ProxyStatus.working ∨
      (c.check_proxy p outcome).country = none) ∧
    ((c.check_proxy p outcome).status = ProxyStatus.working ∨
      (c.check_proxy p outcome).city = none) ∧
    ((c.check_proxy p outcome).error ≠ none ↔
      (c.check_proxy p outcome).status ≠ ProxyStatus.working) := by
  cases outcome with
  | response st body e =>
    cases body with
    | ok data => by_cases h : st = 200 <;> simp [ProxyChecker.check_proxy, h]
    | error msg => by_cases h : st = 200 <;> simp [ProxyChecker.check_proxy, h]
  | timedOut => simp [ProxyChecker.check_proxy]
  | failure m => simp [ProxyChecker.check_proxy]

/-- C9: normalization is idempotent, because its output always starts with one
of the four recognized scheme strings. -/
theorem c9_normalize_idempotent (s : String) :
    normalizeProxy (normalizeProxy s) = normalizeProxy s ∧
    startswithAny (normalizeProxy s) schemeList = true := by
  by_cases h : startswithAny s schemeList
  · have he : normalizeProxy s = s := by simp [normalizeProxy, h]
    rw [he]
    exact ⟨by simp [normalizeProxy, h], h⟩
  · have hb : startswithAny s schemeList = false := by simpa using h
    have he : normalizeProxy s = "http://" ++ s := by simp [normalizeProxy, hb]
    have hp := startswithAny_http_append s
    rw [he]
    exact ⟨by simp [normalizeProxy, hp], hp⟩

/-- C10: scheme recognition is exact case-sensitive matching on the four
lowercase scheme strings: any other string gets `http://` prepended, the
empty string becomes `"http://"`, and an uppercase-scheme spec such as
`"HTTP://host:port"` becomes `"http://HTTP://host:port"`. -/
theorem c10_case_sensitive_matching (s : String)
    (h : startswithAny s schemeList = false) :
    normalizeProxy s = "http://" ++ s ∧
    normalizeProxy "" = "http://" ∧
    normalizeProxy "HTTP://host:port" = "http://HTTP://host:port" := by
  refine ⟨by simp [normalizeProxy, h], by decide, by decide⟩

/-- C10 witness: a bare `host:port` spec fails the scheme test and gets
`http://` prepended. -/
theorem c10_witness :
    startswithAny "example.com:3128" schemeList = false ∧
    normalizeProxy "example.com:3128" = "http://example.com:3128" := by
  have h : startswithAny "example.com:3128" schemeList = false := by decide
  exact ⟨h, (c10_case_sensitive_matching "example.com:3128" h).1⟩

/-- Statuses partition a result list: the counts of working, failed and
timeout results add up to its length. -/
lemma status_partition (results : List ProxyResult) :
    results.countP (fun r => r.status == ProxyStatus.working) +
      results.countP (fun r => r.status == ProxyStatus.failed) +
      results.countP (fun r => r.status == ProxyStatus.timeout) =
      results.length := by
  induction results with
  | nil => rfl
  | cons r rs ih =>
    cases hs : r.status <;> simp [List.countP_cons, hs] <;> omega

/-- C4: the batch check returns exactly one result per input, the `i`-th
result is the single check of the `i`-th input proxy (output order equals
input order), and the empty input yields the empty output. -/
theorem c4_batch_order_and_length (c : ProxyChecker) (proxies : List String)
    (env : ℕ → ProbeOutcome) :
    (c.check_proxies proxies env).length = proxies.length ∧
    (∀ i, i < proxies.length →
      (c.check_proxies proxies env)[i]? =
        some (c.check_proxy (proxies.getD i "") (env i))) ∧
    c.check_proxies [] env = [] := by
  refine ⟨by simp [ProxyChecker.check_proxies], ?_, rfl⟩
  intro i hi
  have hi' : i < (c.check_proxies proxies env).length := by
    simpa [ProxyChecker.check_proxies] using hi
  rw [List.getElem?_eq_getElem hi']
  simp [ProxyChecker.check_proxies, List.getD_eq_getElem?_getD,
    List.getElem?_eq_getElem hi]

/-- C4 witness: a concrete two-element batch has length 2, its second entry is
the check of the second input, and the empty batch is empty. -/
theorem c4_witness :
    (ProxyChecker.check_proxies ⟨10, "http://ip-api.com/json/"⟩
        ["a", "socks5://b"] (fun _ => ProbeOutcome.timedOut)).length = 2 ∧
    (ProxyChecker.check_proxies ⟨10, "http://ip-api.com/json/"⟩
        ["a", "socks5://b"] (fun _ => ProbeOutcome.timedOut))[1]? =
      some (ProxyChecker.check_proxy ⟨10, "http://ip-api.com/json/"⟩
        "socks5://b" ProbeOutcome.timedOut) ∧
    ProxyChecker.check_proxies ⟨10, "http://ip-api.com/json/"⟩ []
        (fun _ => ProbeOutcome.timedOut) = [] := by
  have h := c4_batch_order_and_length ⟨10, "http://ip-api.com/json/"⟩
    ["a", "socks5://b"] (fun _ => ProbeOutcome.timedOut)
  have h0 := c4_batch_order_and_length ⟨10, "http://ip-api.com/json/"⟩
    ([] : List String) (fun _ => ProbeOutcome.timedOut)
  exact ⟨h.1, h.2.1 1 (by decide), h0.2.2⟩

/-- C5: the batch summary has `total` = number of results, `working` = number
of results with status working, `failed` = total − working — equivalently the
failed results plus the timeout results — and `success_rate` =
round(working/total × 100, 2) when total > 0 and 0.0 when total = 0. -/
theorem c5_batch_summary (results : List ProxyResult) :
    (check_batch_summary results).total = results.length ∧
    (check_batch_summary results).working =
      (results.filter (fun r => r.status == ProxyStatus.working)).length ∧
    (check_batch_summary results).failed =
      (check_batch_summary results).total - (check_batch_summary results).working ∧
    (check_batch_summary results).failed =
      (results.filter (fun r => r.status == ProxyStatus.failed)).length +
        (results.filter (fun r => r.status == ProxyStatus.timeout)).length ∧
    (0 < (check_batch_summary results).total →
      (check_batch_summary results).success_rate =
        round2 (((check_batch_summary results).working : ℚ) /
          ((check_batch_summary results).total : ℚ) * 100)) ∧
    ((check_batch_summary results).total = 0 →
      (check_batch_summary results).success_rate = 0) := by
  have hpart := status_partition results
  refine ⟨rfl, List.countP_eq_length_filter _ _, rfl, ?_, ?_, ?_⟩
  · show results.length - results.countP (fun r => r.status == ProxyStatus.working) = _
    rw [← List.countP_eq_length_filter, ← List.countP_eq_length_filter]
    omega
  · intro h
    have h' : 0 < results.length := h
    simp only [check_batch_summary, if_pos h']
  · intro h
    have h' : results.length = 0 := h
    simp [check_batch_summary, h']

/-- C5 witness: a batch of one working, one failed and one timeout result has
success rate 33.33, and the empty batch has success rate 0.0. -/
theorem c5_witness :
    (check_batch_summary sampleResults).total = 3 ∧
    (check_batch_summary sampleResults).working = 1 ∧
    (check_batch_summary sampleResults).failed = 2 ∧
    (check_batch_summary sampleResults).success_rate = 3333 / 100 ∧
    (check_batch_summary []).success_rate = 0 := by
  have h := c5_batch_summary sampleResults
  have h0 := c5_batch_summary ([] : List ProxyResult)
  have hw : (check_batch_summary sampleResults).working = 1 := by decide
  have ht : (check_batch_summary sampleResults).total = 3 := by decide
  refine ⟨ht, hw, by decide, ?_, h0.2.2.2.2.2 rfl⟩
  rw [h.2.2.2.2.1 (by decide), hw, ht]
  norm_num [round2, round_eq]

/-- Updating one task's phase changes the running count by exactly the
difference between the new and old phase's contribution. -/
lemma runningCount_update {n : ℕ} (s : Fin n → TaskPhase) (i : Fin n)
    (ph : TaskPhase) :
    runningCount (Function.update s i ph) +
      (if s i = TaskPhase.running then 1 else 0) =
      runningCount s + (if ph = TaskPhase.running then 1 else 0) := by
  have key : ∀ t : Fin n → TaskPhase,
      runningCount t = (if t i = TaskPhase.running then 1 else 0) +
        ∑ j ∈ Finset.univ.erase i, (if t j = TaskPhase.running then 1 else 0) := by
    intro t
    unfold runningCount
    rw [← Finset.add_sum_erase _ _ (Finset.mem_univ i)]
  have hne : ∑ j ∈ Finset.univ.erase i,
      (if Function.update s i ph j = TaskPhase.running then (1 : ℕ) else 0) =
      ∑ j ∈ Finset.univ.erase i, (if s j = TaskPhase.running then 1 else 0) := by
    refine Finset.sum_congr rfl (fun j hj => ?_)
    have hji : j ≠ i := Finset.ne_of_mem_erase hj
    simp [Function.update_apply, hji]
  rw [key (Function.update s i ph), key s, hne, Function.update_same]
  ring

/-- C8: in every state the batch scheduler can reach, at most
`max_concurrent` tasks are inside the semaphore block at once — each check
acquires one unit of the counting gate before its network operation and
releases it unconditionally once its result is produced. -/
theorem c8_semaphore_bounds_concurrency (n max_concurrent : ℕ)
    (s : Fin n → TaskPhase) (h : Reachable n max_concurrent s) :
    runningCount s ≤ max_concurrent := by
  induction h with
  | refl => simp [runningCount, initState]
  | @tail b c hab hstep ih =>
    cases hstep with
    | acquire i hw hc =>
      have hu := runningCount_update b i TaskPhase.running
      simp [hw] at hu
      omega
    | release i hr =>
      have hu := runningCount_update b i TaskPhase.done
      simp [hr] at hu
      omega

/-- C8 witness: with a cap of 1 on a batch of 2 tasks, the state reached by
admitting task 0 is reachable and respects the bound. -/
theorem c8_witness :
    Reachable 2 1 (Function.update (initState 2) (0 : Fin 2) TaskPhase.running) ∧
    runningCount (Function.update (initState 2) (0 : Fin 2) TaskPhase.running)
      ≤ 1 := by
  have h0 : runningCount (initState 2) < 1 := by simp [runningCount, initState]
  have hr : Reachable 2 1
      (Function.update (initState 2) (0 : Fin 2) TaskPhase.running) :=
    Relation.ReflTransGen.single (SemStep.acquire (initState 2) 0 rfl h0)
  exact ⟨hr, c8_semaphore_bounds_concurrency 2 1 _ hr⟩
